import Mathlib

/-!
Verification of the serta-mulia prediction server (src/server.js).

The embedding models the prediction pipeline of `server.js`:
`predictClassification` (size check, decode, model forward pass, confidence
scoring and the classification threshold), the Firestore-backed store
(`storeData`, `getData`, `modelData`), the two route handlers
(`postPredictHandler`, `getPredictHandler`) and the route table.

JavaScript numbers entering the threshold comparisons can be NaN or
±Infinity (e.g. `Math.max()` of an empty array is -Infinity), so scores are
modelled by `JsNum`: a rational together with the three special values,
with the IEEE-754 comparison semantics used by JavaScript's `<` operator.
External collaborators (the TensorFlow decode chain and the model's forward
pass) are parameters of the pipeline; the store is an association list.
-/

namespace SertaMulia

/-- A JavaScript number as it flows through the pipeline: a finite value
(modelled exactly, as a rational), NaN, or one of the two infinities. -/
inductive JsNum where
  | nan : JsNum
  | negInf : JsNum
  | posInf : JsNum
  | finite : ℚ → JsNum
deriving DecidableEq, Repr

/-- JavaScript's `<` on numbers: every comparison involving NaN is false;
-Infinity is below every non-NaN value and +Infinity above. -/
def JsNum.lt : JsNum → JsNum → Bool
  | JsNum.nan, _ => false
  | _, JsNum.nan => false
  | JsNum.negInf, JsNum.negInf => false
  | JsNum.negInf, _ => true
  | _, JsNum.negInf => false
  | JsNum.posInf, _ => false
  | JsNum.finite _, JsNum.posInf => true
  | JsNum.finite a, JsNum.finite b => decide (a < b)

/-- Multiplication by the literal 100 (server.js line 89: `* 100`); NaN and
the infinities are preserved, exactly as in IEEE-754 multiplication by a
positive finite constant. -/
def JsNum.mul100 : JsNum → JsNum
  | JsNum.nan => JsNum.nan
  | JsNum.negInf => JsNum.negInf
  | JsNum.posInf => JsNum.posInf
  | JsNum.finite q => JsNum.finite (q * 100)

/-- Binary step of JavaScript's `Math.max`: NaN absorbs, otherwise the
larger argument is returned. -/
def jsMax2 : JsNum → JsNum → JsNum
  | JsNum.nan, _ => JsNum.nan
  | _, JsNum.nan => JsNum.nan
  | a, b => if JsNum.lt a b then b else a

/-- `Math.max(...score)` (server.js line 89): fold of `jsMax2` starting
from -Infinity, which is also `Math.max()` of an empty argument list. -/
def jsMaxList (score : List JsNum) : JsNum :=
  score.foldl jsMax2 JsNum.negInf

/-- The `InputError` class of server.js (lines 21-27): a named error with a
message and a status code, the status code defaulting to 400. -/
structure InputError where
  name : String
  message : String
  statusCode : Nat
deriving DecidableEq, Repr

/-- `new InputError(message)` with the default status code. -/
def InputError.make (message : String) : InputError :=
  ⟨"InputError", message, 400⟩

/-- An exception propagating inside the try block of
`predictClassification`: either an `InputError` thrown by the size check,
or an arbitrary error from the external decode / model calls. -/
inductive Thrown where
  | input : InputError → Thrown
  | other : String → Thrown
deriving DecidableEq, Repr

/-- The result object built at server.js lines 91-95. -/
structure ClassificationResult where
  confidenceScore : JsNum
  label : String
  suggestion : String
deriving DecidableEq, Repr

/-- Lines 91-95 of server.js: the result defaults to label "Cancer" with
the see-a-doctor suggestion, and is overwritten to "Non-cancer" with the
no-cancer suggestion when `confidenceScore < 1`. -/
def classify (confidenceScore : JsNum) : ClassificationResult :=
  if JsNum.lt confidenceScore (JsNum.finite 1) then
    ⟨confidenceScore, "Non-cancer", "Penyakit kanker tidak terdeteksi."⟩
  else
    ⟨confidenceScore, "Cancer", "Segera periksa ke dokter!"⟩

/-- A raw image payload: a byte sequence. Only its length is inspected by
the code under verification. -/
abbrev Image := List Nat

/-- The try-block body of `predictClassification` (server.js lines 84-97),
before the catch clause. `decode` stands for the external
`tf.node.decodeJpeg(...).resizeNearestNeighbor([224,224]).expandDims().toFloat()`
chain and `model` for `model.predict` followed by `prediction.data()`; both
may fail with an arbitrary error. The second component counts how many
times the model's forward pass is invoked. -/
def predictBody {T : Type} (decode : Image → Except String T)
    (model : T → Except String (List JsNum)) (image : Image) :
    Except Thrown ClassificationResult × Nat :=
  if image.length > 1024 * 1024 then
    (Except.error (Thrown.input
      (InputError.make "Ukuran gambar terlalu besar. Maksimum 1MB.")), 0)
  else
    match decode image with
    | Except.error m => (Except.error (Thrown.other m), 0)
    | Except.ok tensor =>
      match model tensor with
      | Except.error m => (Except.error (Thrown.other m), 1)
      | Except.ok score =>
        (Except.ok (classify (JsNum.mul100 (jsMaxList score))), 1)

/-- `predictClassification` (server.js lines 82-101): the try block wrapped
by the catch clause, which replaces every propagating exception — the size
check's own `InputError` included — by
`new InputError("Terjadi kesalahan dalam melakukan prediksi")`. -/
def predictClassification {T : Type} (decode : Image → Except String T)
    (model : T → Except String (List JsNum)) (image : Image) :
    Except InputError ClassificationResult × Nat :=
  match predictBody decode model image with
  | (Except.ok r, n) => (Except.ok r, n)
  | (Except.error _, n) =>
    (Except.error (InputError.make "Terjadi kesalahan dalam melakukan prediksi"), n)

/-- A stored prediction document (server.js lines 112-118): the fields
written by `postPredictHandler` under the generated id. -/
structure PredictionRecord where
  id : String
  result : String
  suggestion : String
  confidenceScore : JsNum
  createdAt : String
deriving DecidableEq, Repr

/-- The `predictions` collection, as a document-id-keyed association list. -/
abbrev Store := List (String × PredictionRecord)

/-- `storeData(id, data)` (server.js lines 49-52): `doc(id).set(data)`
creates or overwrites the document stored under `id`. -/
def storeData (store : Store) (id : String) (data : PredictionRecord) : Store :=
  (id, data) :: store.filter (fun p => p.1 != id)

/-- The nested object of a `HistoryView` (server.js lines 40-45). -/
structure HistoryBody where
  result : String
  createdAt : String
  suggestion : String
  id : String
deriving DecidableEq, Repr

/-- The read-model shape returned to callers (server.js lines 37-47). -/
structure HistoryView where
  id : String
  history : HistoryBody
deriving DecidableEq, Repr

/-- `modelData(doc)` (server.js lines 37-47), with the document split into
its id and its data. -/
def modelData (id : String) (data : PredictionRecord) : HistoryView :=
  ⟨id, ⟨data.result, data.createdAt, data.suggestion, id⟩⟩

/-- The view of every document in the collection, in store order
(server.js lines 61-64). -/
def allViews (store : Store) : List HistoryView :=
  store.map (fun p => modelData p.1 p.2)

/-- What `getData` returns when it does not return `null`: a single view
(lookup by id) or the full collection. -/
inductive GetDataResult where
  | one : HistoryView → GetDataResult
  | many : List HistoryView → GetDataResult
deriving DecidableEq, Repr

/-- `getData(id = null)` (server.js lines 54-66). JavaScript's `if (id)`
tests truthiness, so both an absent id and the empty string select the
full-collection branch; a missing document yields `null` (`none`). -/
def getData (store : Store) : Option String → Option GetDataResult
  | some id =>
    if id = "" then some (GetDataResult.many (allViews store))
    else (store.lookup id).map (fun data => GetDataResult.one (modelData id data))
  | none => some (GetDataResult.many (allViews store))

/-- The 201 response built by `postPredictHandler` (server.js
lines 122-128). -/
structure PostResponse where
  code : Nat
  status : String
  message : String
  data : PredictionRecord
deriving DecidableEq, Repr

/-- `postPredictHandler` (server.js lines 104-129). The generated UUID and
the ISO timestamp are external inputs (`id`, `createdAt`); the handler
returns either its 201 response or the propagating `InputError`, together
with the store after the request and the model-invocation count. -/
def postPredictHandler {T : Type} (decode : Image → Except String T)
    (model : T → Except String (List JsNum)) (image : Image)
    (id createdAt : String) (store : Store) :
    Except InputError PostResponse × Store × Nat :=
  match predictClassification decode model image with
  | (Except.error e, n) => (Except.error e, store, n)
  | (Except.ok r, n) =>
    let data : PredictionRecord := ⟨id, r.label, r.suggestion, r.confidenceScore, createdAt⟩
    (Except.ok ⟨201, "success",
      if JsNum.lt (JsNum.finite 0) r.confidenceScore then
        "Model is predicted successfully"
      else "Please use the correct picture", data⟩,
     storeData store id data, n)

/-- The response of `getPredictHandler` (server.js lines 131-151): status
code, status string, the failure message when present, and the data when
present. -/
structure GetResponse where
  code : Nat
  status : String
  message : Option String
  data : Option GetDataResult
deriving DecidableEq, Repr

/-- `getPredictHandler` (server.js lines 131-151): a `null` from `getData`
becomes the 404 fail response, anything else the 200 success response. -/
def getPredictHandler (store : Store) (pid : Option String) : GetResponse :=
  match getData store pid with
  | none => ⟨404, "fail", some "Prediction not found", none⟩
  | some d => ⟨200, "success", none, some d⟩

/-- The route table (server.js lines 171-189): method and path of each
exposed route. -/
def routeTable : List (String × String) :=
  [("POST", "/predict"), ("GET", "/predict/histories")]

/-- Splitting a character list at every `/`, accumulating the current
segment in reverse. -/
def splitSlashAux : List Char → List Char → List (List Char)
  | acc, [] => [acc.reverse]
  | acc, c :: cs =>
    if c = '/' then acc.reverse :: splitSlashAux [] cs
    else splitSlashAux (c :: acc) cs

/-- The `/`-separated segments of a path. -/
def pathSegs (path : String) : List String :=
  (splitSlashAux [] path.data).map (fun cs => String.mk cs)

/-- Hapi path-parameter syntax on a segment's characters: the form
`\x7bname\x7d` declares a parameter named `name`; anything else declares
none. -/
def paramChars : List Char → Option (List Char)
  | [] => none
  | c :: cs =>
    if c = '\x7b' then
      match cs.getLast? with
      | some d => if d = '\x7d' then some cs.dropLast else none
      | none => none
    else none

/-- The parameter name declared by a route-path segment, if any. -/
def paramName (seg : String) : Option String :=
  (paramChars seg.data).map (fun cs => String.mk cs)

/-- Hapi's binding of a request path against a route path: each declared
parameter segment captures the corresponding request segment, producing
`request.params`. -/
def extractParams (routePath reqPath : String) : List (String × String) :=
  (List.zip (pathSegs routePath) (pathSegs reqPath)).filterMap
    (fun p => (paramName p.1).map (fun n => (n, p.2)))

deriving instance DecidableEq for Except

/-- Test double: a decode chain that always succeeds, with an opaque
tensor. -/
def decodeOk : Image → Except String Unit := fun _ => Except.ok ()

/-- Test double: a decode chain that always fails. -/
def decodeFail : Image → Except String Unit := fun _ => Except.error "decode failure"

/-- Test double: a model whose forward pass returns a fixed output
array. -/
def modelConst (out : List JsNum) : Unit → Except String (List JsNum) :=
  fun _ => Except.ok out

/-- An all-zero payload one byte over the 1 MiB limit. -/
def bigImage : Image := List.replicate (1024 * 1024 + 1) 0

theorem bigImage_length : bigImage.length > 1024 * 1024 := by
  unfold bigImage
  rw [List.length_replicate]
  norm_num

theorem predictBody_oversized {T : Type} (decode : Image → Except String T)
    (model : T → Except String (List JsNum)) (image : Image)
    (h : image.length > 1024 * 1024) :
    predictBody decode model image =
      (Except.error (Thrown.input
        (InputError.make "Ukuran gambar terlalu besar. Maksimum 1MB.")), 0) := by
  unfold predictBody
  rw [if_pos h]

theorem predictClassification_wraps_error {T : Type}
    (decode : Image → Except String T) (model : T → Except String (List JsNum))
    (image : Image) (e : Thrown) (n : Nat)
    (h : predictBody decode model image = (Except.error e, n)) :
    predictClassification decode model image =
      (Except.error (InputError.make "Terjadi kesalahan dalam melakukan prediksi"), n) := by
  unfold predictClassification
  rw [h]

/-- C1: the classification policy labels the result Non-cancer with the
non-cancer suggestion exactly when the confidence score is below 1, and
Cancer with the see-a-doctor suggestion exactly when it is at least 1; in
particular a score of exactly 1 is classified Cancer, the comparison being
a strict less-than. -/
theorem claim1_threshold (q : ℚ) :
    ((classify (JsNum.finite q)).label = "Non-cancer" ↔ q < 1) ∧
    ((classify (JsNum.finite q)).suggestion = "Penyakit kanker tidak terdeteksi." ↔ q < 1) ∧
    ((classify (JsNum.finite q)).label = "Cancer" ↔ 1 ≤ q) ∧
    ((classify (JsNum.finite q)).suggestion = "Segera periksa ke dokter!" ↔ 1 ≤ q) ∧
    (classify (JsNum.finite 1)).label = "Cancer" := by
  have h1 : (classify (JsNum.finite 1)).label = "Cancer" := by decide
  by_cases h : q < 1
  · simp [classify, JsNum.lt, h, not_le.mpr h, h1]
  · simp [classify, JsNum.lt, h, not_lt.mp h, h1]

/-- C10: the classification branch is decided solely by the JavaScript
comparison `confidenceScore < 1` and is total: every score for which the
comparison is not true — NaN included — is labelled Cancer, and every
score below 1 — zero, negatives and -Infinity (the `Math.max` of an empty
output array) included — is labelled Non-cancer. -/
theorem claim10_total_policy :
    (∀ c : JsNum, (classify c).label = "Cancer" ∨ (classify c).label = "Non-cancer") ∧
    (∀ c : JsNum, ((classify c).label = "Non-cancer" ↔ JsNum.lt c (JsNum.finite 1) = true)) ∧
    (∀ c : JsNum, ((classify c).label = "Cancer" ↔ JsNum.lt c (JsNum.finite 1) = false)) ∧
    (classify JsNum.nan).label = "Cancer" ∧
    (classify JsNum.negInf).label = "Non-cancer" ∧
    jsMaxList [] = JsNum.negInf ∧
    (classify (JsNum.finite 0)).label = "Non-cancer" ∧
    (classify (JsNum.finite (-5))).label = "Non-cancer" := by
  refine ⟨?_, ?_, ?_, by decide, by decide, by decide, by decide, by decide⟩ <;>
    intro c <;> unfold classify <;> rcases h : JsNum.lt c (JsNum.finite 1) <;> simp [h]

/-- C2: for every image whose byte length exceeds 1,048,576, the
prediction pipeline fails with an `InputError` of status code 400 and the
model's forward pass is never invoked: the result is the same for every
decode chain and every model, and the invocation count is 0. -/
theorem claim2_oversized_rejected {T : Type} (decode : Image → Except String T)
    (model : T → Except String (List JsNum)) (image : Image)
    (h : image.length > 1024 * 1024) :
    predictClassification decode model image =
      (Except.error (InputError.make "Terjadi kesalahan dalam melakukan prediksi"), 0) ∧
    (InputError.make "Terjadi kesalahan dalam melakukan prediksi").statusCode = 400 ∧
    (InputError.make "Terjadi kesalahan dalam melakukan prediksi").name = "InputError" := by
  unfold predictClassification predictBody
  rw [if_pos h]
  exact ⟨rfl, rfl, rfl⟩

/-- Witness for C2 at a concrete oversized payload. -/
theorem claim2_oversized_rejected_witness :
    predictClassification decodeOk (modelConst [JsNum.posInf]) bigImage =
      (Except.error (InputError.make "Terjadi kesalahan dalam melakukan prediksi"), 0) :=
  (claim2_oversized_rejected decodeOk (modelConst [JsNum.posInf]) bigImage bigImage_length).1

/-- C3: at a concrete oversized payload the size check raises the
size-specific `InputError` inside the try block, but the catch clause of
`predictClassification` replaces it, so the error surfaced to the caller
carries the generic message, which does not contain the "Maksimum 1MB"
text; the size-specific message is never surfaced. -/
theorem claim3_size_message_swallowed :
    (predictBody decodeOk (modelConst [JsNum.posInf]) bigImage).1 =
      Except.error (Thrown.input
        (InputError.make "Ukuran gambar terlalu besar. Maksimum 1MB.")) ∧
    (predictClassification decodeOk (modelConst [JsNum.posInf]) bigImage).1 =
      Except.error (InputError.make "Terjadi kesalahan dalam melakukan prediksi") ∧
    ¬ "Maksimum 1MB".data <:+: "Terjadi kesalahan dalam melakukan prediksi".data := by
  have hb := predictBody_oversized decodeOk (modelConst [JsNum.posInf])
    bigImage bigImage_length
  have hc := predictClassification_wraps_error decodeOk (modelConst [JsNum.posInf])
    bigImage _ _ hb
  exact ⟨congrArg Prod.fst hb, congrArg Prod.fst hc, by decide⟩

/-- C5: a request writes to the store only on success: when
`predictClassification` fails the store after the request is exactly the
store before it, and when it succeeds the store after the request is
exactly the store with the one new record written under the generated
id. -/
theorem claim5_atomicity {T : Type} (decode : Image → Except String T)
    (model : T → Except String (List JsNum)) (image : Image)
    (id createdAt : String) (store : Store) :
    (∀ e : InputError,
      (postPredictHandler decode model image id createdAt store).1 = Except.error e →
      (postPredictHandler decode model image id createdAt store).2.1 = store) ∧
    (∀ resp : PostResponse,
      (postPredictHandler decode model image id createdAt store).1 = Except.ok resp →
      (postPredictHandler decode model image id createdAt store).2.1 =
        storeData store id resp.data ∧
      (postPredictHandler decode model image id createdAt store).2.1.length =
        (store.filter (fun p => p.1 != id)).length + 1) := by
  unfold postPredictHandler
  rcases hp : predictClassification decode model image with ⟨r, k⟩
  cases r with
  | error e =>
    refine ⟨fun e2 h2 => rfl, fun resp h2 => ?_⟩
    simp at h2
  | ok cr =>
    refine ⟨fun e2 h2 => by simp at h2, fun resp h2 => ?_⟩
    simp only [Except.ok.injEq] at h2
    subst h2
    exact ⟨rfl, by simp [storeData]⟩

/-- Witness for C5: a failing request leaves the store untouched, a
successful one performs exactly the single write. -/
theorem claim5_atomicity_witness :
    (postPredictHandler decodeFail (modelConst [JsNum.posInf]) [0] "w5" "t"
        [("k", ⟨"k", "Cancer", "Segera periksa ke dokter!", JsNum.nan, "t"⟩)]).2.1 =
      [("k", ⟨"k", "Cancer", "Segera periksa ke dokter!", JsNum.nan, "t"⟩)] ∧
    (postPredictHandler decodeOk (modelConst [JsNum.posInf]) [0] "w5" "t" []).2.1 =
      storeData [] "w5" ⟨"w5", "Cancer", "Segera periksa ke dokter!", JsNum.posInf, "t"⟩ :=
  ⟨(claim5_atomicity decodeFail (modelConst [JsNum.posInf]) [0] "w5" "t"
      [("k", ⟨"k", "Cancer", "Segera periksa ke dokter!", JsNum.nan, "t"⟩)]).1
      (InputError.make "Terjadi kesalahan dalam melakukan prediksi") rfl,
   ((claim5_atomicity decodeOk (modelConst [JsNum.posInf]) [0] "w5" "t" []).2
      ⟨201, "success", "Model is predicted successfully",
        ⟨"w5", "Cancer", "Segera periksa ke dokter!", JsNum.posInf, "t"⟩⟩ rfl).1⟩

/-- C6: every successful request carries the message "Model is predicted
successfully" exactly when the confidence score compares greater than 0
and "Please use the correct picture" otherwise, and in both cases the
record is stored and the status code is 201. -/
theorem claim6_message_policy {T : Type} (decode : Image → Except String T)
    (model : T → Except String (List JsNum)) (image : Image)
    (id createdAt : String) (store : Store) (resp : PostResponse)
    (store2 : Store) (n : Nat)
    (h : postPredictHandler decode model image id createdAt store =
      (Except.ok resp, store2, n)) :
    resp.code = 201 ∧ resp.status = "success" ∧
    store2 = storeData store id resp.data ∧
    (resp.message = "Model is predicted successfully" ↔
      JsNum.lt (JsNum.finite 0) resp.data.confidenceScore = true) ∧
    (resp.message = "Please use the correct picture" ↔
      JsNum.lt (JsNum.finite 0) resp.data.confidenceScore = false) := by
  unfold postPredictHandler at h
  rcases hp : predictClassification decode model image with ⟨r, k⟩
  rw [hp] at h
  cases r with
  | error e => simp at h
  | ok cr =>
    simp only [Prod.mk.injEq, Except.ok.injEq] at h
    obtain ⟨h1, h2, h3⟩ := h
    subst h1
    subst h2
    rcases hc : JsNum.lt (JsNum.finite 0) cr.confidenceScore <;>
      simp [hc]

/-- Witness for C6 at a concrete success in each message branch. -/
theorem claim6_message_policy_witness :
    ("Model is predicted successfully" = "Model is predicted successfully" ↔
      JsNum.lt (JsNum.finite 0) JsNum.posInf = true) ∧
    ("Please use the correct picture" = "Please use the correct picture" ↔
      JsNum.lt (JsNum.finite 0) JsNum.negInf = false) :=
  ⟨(claim6_message_policy decodeOk (modelConst [JsNum.posInf]) [0] "w6" "t" []
      ⟨201, "success", "Model is predicted successfully",
        ⟨"w6", "Cancer", "Segera periksa ke dokter!", JsNum.posInf, "t"⟩⟩
      [("w6", ⟨"w6", "Cancer", "Segera periksa ke dokter!", JsNum.posInf, "t"⟩)] 1
      rfl).2.2.2.1,
   (claim6_message_policy decodeOk (modelConst []) [0] "w6b" "t" []
      ⟨201, "success", "Please use the correct picture",
        ⟨"w6b", "Non-cancer", "Penyakit kanker tidak terdeteksi.", JsNum.negInf, "t"⟩⟩
      [("w6b", ⟨"w6b", "Non-cancer", "Penyakit kanker tidak terdeteksi.", JsNum.negInf, "t"⟩)] 1
      rfl).2.2.2.2⟩

/-- C8: looking up an id with no stored record returns the 404 fail
response with the "Prediction not found" message; absence is an ordinary
return value of the total handler, not an exception. -/
theorem claim8_not_found (store : Store) (id : String) (hid : id ≠ "")
    (hlk : store.lookup id = none) :
    getPredictHandler store (some id) =
      ⟨404, "fail", some "Prediction not found", none⟩ := by
  unfold getPredictHandler getData
  dsimp only
  rw [if_neg hid, hlk]
  rfl

/-- Witness for C8 at a concrete unknown id. -/
theorem claim8_not_found_witness :
    getPredictHandler [] (some "nonexistent-id") =
      ⟨404, "fail", some "Prediction not found", none⟩ :=
  claim8_not_found [] "nonexistent-id" (by decide) rfl

theorem classify_confidence (c : JsNum) : (classify c).confidenceScore = c := by
  unfold classify
  split <;> rfl

/-- C4: a record produced by a successful prediction request and then
fetched by its id returns the 200 success response holding a HistoryView
whose `history.result`, `history.suggestion`, `history.createdAt` and `id`
fields exactly equal the corresponding fields of the stored record. -/
theorem claim4_roundtrip {T : Type} (decode : Image → Except String T)
    (model : T → Except String (List JsNum)) (image : Image)
    (id createdAt : String) (store : Store) (resp : PostResponse)
    (store2 : Store) (n : Nat) (hid : id ≠ "")
    (h : postPredictHandler decode model image id createdAt store =
      (Except.ok resp, store2, n)) :
    getPredictHandler store2 (some id) =
      ⟨200, "success", none, some (GetDataResult.one (modelData id resp.data))⟩ ∧
    (modelData id resp.data).history.result = resp.data.result ∧
    (modelData id resp.data).history.suggestion = resp.data.suggestion ∧
    (modelData id resp.data).history.createdAt = resp.data.createdAt ∧
    (modelData id resp.data).id = resp.data.id := by
  unfold postPredictHandler at h
  rcases hp : predictClassification decode model image with ⟨r, k⟩
  rw [hp] at h
  cases r with
  | error e => simp at h
  | ok cr =>
    simp only [Prod.mk.injEq, Except.ok.injEq] at h
    obtain ⟨h1, h2, h3⟩ := h
    subst h1
    subst h2
    refine ⟨?_, rfl, rfl, rfl, rfl⟩
    unfold getPredictHandler getData
    dsimp only
    rw [if_neg hid]
    simp [storeData, List.lookup]

/-- Witness for C4 at a concrete successful submission. -/
theorem claim4_roundtrip_witness :
    getPredictHandler
        [("w4", ⟨"w4", "Cancer", "Segera periksa ke dokter!", JsNum.posInf, "t"⟩)]
        (some "w4") =
      ⟨200, "success", none, some (GetDataResult.one
        (modelData "w4" ⟨"w4", "Cancer", "Segera periksa ke dokter!", JsNum.posInf, "t"⟩))⟩ :=
  (claim4_roundtrip decodeOk (modelConst [JsNum.posInf]) [0] "w4" "t" []
    ⟨201, "success", "Model is predicted successfully",
      ⟨"w4", "Cancer", "Segera periksa ke dokter!", JsNum.posInf, "t"⟩⟩
    [("w4", ⟨"w4", "Cancer", "Segera periksa ke dokter!", JsNum.posInf, "t"⟩)] 1
    (by decide) rfl).1

theorem jsMax2_finite (a b : ℚ) :
    jsMax2 (JsNum.finite a) (JsNum.finite b) = JsNum.finite (max a b) := by
  by_cases h : a < b
  · simp [jsMax2, JsNum.lt, h, max_eq_right h.le]
  · simp [jsMax2, JsNum.lt, h, max_eq_left (not_lt.mp h)]

theorem foldl_jsMax2_finite (l : List ℚ) (a : ℚ) :
    List.foldl jsMax2 (JsNum.finite a) (l.map JsNum.finite) =
      JsNum.finite (List.foldl max a l) := by
  induction l generalizing a with
  | nil => rfl
  | cons b t ih => simp only [List.map_cons, List.foldl_cons, jsMax2_finite, ih]

theorem jsMaxList_cons_finite (q : ℚ) (l : List ℚ) :
    jsMaxList ((q :: l).map JsNum.finite) = JsNum.finite (List.foldl max q l) := by
  unfold jsMaxList
  simp only [List.map_cons, List.foldl_cons]
  have h0 : jsMax2 JsNum.negInf (JsNum.finite q) = JsNum.finite q := rfl
  rw [h0, foldl_jsMax2_finite]

theorem predictBody_success {T : Type} (decode : Image → Except String T)
    (model : T → Except String (List JsNum)) (image : Image) (t : T)
    (score : List JsNum)
    (hsize : ¬ image.length > 1024 * 1024)
    (hdec : decode image = Except.ok t)
    (hmod : model t = Except.ok score) :
    predictBody decode model image =
      (Except.ok (classify (JsNum.mul100 (jsMaxList score))), 1) := by
  unfold predictBody
  rw [if_neg hsize, hdec]
  dsimp only
  rw [hmod]

theorem predictClassification_ok {T : Type} (decode : Image → Except String T)
    (model : T → Except String (List JsNum)) (image : Image)
    (r : ClassificationResult) (n : Nat)
    (h : predictBody decode model image = (Except.ok r, n)) :
    predictClassification decode model image = (Except.ok r, n) := by
  unfold predictClassification
  rw [h]

/-- C7: for every successful run, the confidence score carried by the
classification result equals the maximum element of the model's output
array multiplied by 100. -/
theorem claim7_confidence_max {T : Type} (decode : Image → Except String T)
    (model : T → Except String (List JsNum)) (image : Image) (t : T)
    (q : ℚ) (l : List ℚ) (m : ℚ)
    (hsize : ¬ image.length > 1024 * 1024)
    (hdec : decode image = Except.ok t)
    (hmod : model t = Except.ok ((q :: l).map JsNum.finite))
    (hmax : (q :: l).max? = some m) :
    predictClassification decode model image =
      (Except.ok (classify (JsNum.finite (m * 100))), 1) ∧
    (classify (JsNum.finite (m * 100))).confidenceScore = JsNum.finite (m * 100) ∧
    m ∈ q :: l ∧ (∀ x ∈ q :: l, x ≤ m) := by
  have hfold : List.foldl max q l = m := by
    simpa [List.max?] using hmax
  have hmem : m ∈ q :: l ∧ ∀ x ∈ q :: l, x ≤ m := by
    have hanti : Std.Antisymm (fun x1 x2 : ℚ => x1 ≤ x2) :=
      ⟨fun h1 h2 => le_antisymm h1 h2⟩
    rw [List.max?_eq_some_iff] at hmax
    · exact ⟨hmax.1, hmax.2⟩
    all_goals simp [le_total]
  have hb := predictBody_success decode model image t _ hsize hdec hmod
  rw [jsMaxList_cons_finite, hfold] at hb
  exact ⟨predictClassification_ok decode model image _ _ hb,
    classify_confidence _, hmem.1, hmem.2⟩

/-- Witness for C7 at a concrete model output. -/
theorem claim7_confidence_max_witness :
    predictClassification decodeOk (modelConst ([(3 : ℚ), 2].map JsNum.finite)) [0] =
      (Except.ok (classify (JsNum.finite ((3 : ℚ) * 100))), 1) ∧
    (classify (JsNum.finite ((3 : ℚ) * 100))).confidenceScore =
      JsNum.finite ((3 : ℚ) * 100) ∧
    (3 : ℚ) ∈ [(3 : ℚ), 2] ∧ (∀ x ∈ [(3 : ℚ), 2], x ≤ (3 : ℚ)) :=
  claim7_confidence_max decodeOk (modelConst ([(3 : ℚ), 2].map JsNum.finite)) [0] ()
    3 [2] 3 (by decide) rfl rfl (by decide)

theorem pathSegs_histories :
    pathSegs "/predict/histories" = ["", "predict", "histories"] := rfl

/-- C9: the only exposed history route, GET /predict/histories, declares
no id path parameter, so `request.params.id` is absent for every request
bound to it; the handler therefore always returns the full collection,
and the single-record branch of `getData` is unreachable through this
route. -/
theorem claim9_histories_route_no_id (store : Store) (reqPath : String) :
    (extractParams "/predict/histories" reqPath).lookup "id" = none ∧
    getPredictHandler store ((extractParams "/predict/histories" reqPath).lookup "id") =
      ⟨200, "success", none, some (GetDataResult.many (allViews store))⟩ ∧
    ("GET", "/predict/histories") ∈ routeTable := by
  have hp1 : paramName "" = none := rfl
  have hp2 : paramName "predict" = none := rfl
  have hp3 : paramName "histories" = none := rfl
  have hempty : extractParams "/predict/histories" reqPath = [] := by
    unfold extractParams
    rw [pathSegs_histories]
    generalize pathSegs reqPath = sl
    rcases sl with _ | ⟨a, _ | ⟨b, _ | ⟨c, rest⟩⟩⟩ <;>
      simp [List.zip, List.zipWith, hp1, hp2, hp3]
  rw [hempty]
  exact ⟨rfl, rfl, by decide⟩

end SertaMulia

